import Mathlib

/-!
Verification of the configuration validation pipeline of `internal/config/parsing.go`
(a DNS service configuration loader).

The embedding models:
* Go's `net.ParseIP`, `IP.To4`, `IP.To16` (the standard-library functions the code
  calls for target and nameserver address checks), translated from the Go standard
  library sources (`net/ip.go` delegating to `net/netip`).  IP byte values are `Nat`
  (each in 0..255 by construction of the parsers); a parsed address is the 16-byte
  slice `net.ParseIP` returns, as a `List Nat`.
* the FQDN pattern check (the regex constant `VALID_FQDN_REGEX` lives outside this
  slice of the repository, so it is modelled from the spec).
* `isValidType`, `isValidTarget`, `isValidRecordName`, `ValidateNameserver` and the
  post-decode validation/normalization pipeline of `LoadConfig`.  File I/O and JSON
  decoding are external collaborators; `LoadConfig` is modelled from the decoded
  `Configuration` value onward, returning the same `(value, error)` pair shape as
  the Go function (`Option Configuration × Option ConfigError`).
-/

/-- Hex digit value of a character, mirroring the inlined hex parsing in Go's
`netip.parseIPv6` (`0-9`, `a-f`, `A-F`). -/
def hexDigit (c : Char) : Option Nat :=
  if '0' ≤ c ∧ c ≤ '9' then some (c.toNat - '0'.toNat)
  else if 'a' ≤ c ∧ c ≤ 'f' then some (c.toNat - 'a'.toNat + 10)
  else if 'A' ≤ c ∧ c ≤ 'F' then some (c.toNat - 'A'.toNat + 10)
  else none

/-- Consume a run of hex digits from the front of `s`, accumulating the value.
Returns `(acc, digitsConsumed, rest)`; fails (like Go) when a fifth digit appears
in one group.  Mirrors the inner loop of `netip.parseIPv6`. -/
def hexGroupAux : List Char → Nat → Nat → Option (Nat × Nat × List Char)
  | [], acc, off => some (acc, off, [])
  | c :: cs, acc, off =>
    match hexDigit c with
    | none => some (acc, off, c :: cs)
    | some d => if off > 3 then none else hexGroupAux cs (acc * 16 + d) (off + 1)

/-- Pointwise update of a byte store (Go's fixed-size byte arrays are modelled as
total functions from index to byte). -/
def setByte (ip : Nat → Nat) (k v : Nat) : Nat → Nat :=
  fun j => if j = k then v else ip j

/-- Model of Go `netip.parseIPv4Fields`: dotted-decimal IPv4, exactly four fields,
each 0..255, no leading zeros, at least one digit per field.  `val`/`digLen` are
the value and digit count of the current field, `pos` the number of completed
fields, `fields` the completed field store. -/
def parseIPv4Fields : List Char → Nat → Nat → Nat → (Nat → Nat) →
    Option (Nat × Nat × Nat × Nat)
  | [], val, _, pos, fields =>
    if pos < 3 then none
    else some (fields 0, fields 1, fields 2, val)
  | c :: cs, val, digLen, pos, fields =>
    if '0' ≤ c ∧ c ≤ '9' then
      if digLen = 1 ∧ val = 0 then none
      else
        let val := val * 10 + (c.toNat - '0'.toNat)
        if val > 255 then none
        else parseIPv4Fields cs val (digLen + 1) pos fields
    else if c = '.' then
      if digLen = 0 then none
      else if cs = [] then none
      else if pos = 3 then none
      else parseIPv4Fields cs 0 0 (pos + 1) (setByte fields pos val)
    else none

/-- Model of Go `netip.parseIPv4` on a rune sequence. -/
def parseIPv4 (s : List Char) : Option (Nat × Nat × Nat × Nat) :=
  parseIPv4Fields s 0 0 0 (fun _ => 0)

/-- The loop of Go `netip.parseIPv6`: parses hex groups separated by `:`, one
optional `::` ellipsis, and an optional trailing embedded IPv4.  State is the
byte store `ip`, write index `i`, and ellipsis position.  Each iteration advances
`i` by at least 2 under the guard `i < 16`, so at most 8 iterations run; `fuel`
is instantiated at 16 and can never be exhausted.  Returns the final
`(ip, i, ellipsis, remaining input)`. -/
def parseIPv6Loop : Nat → List Char → (Nat → Nat) → Nat → Option Nat →
    Option ((Nat → Nat) × Nat × Option Nat × List Char)
  | 0, _, _, _, _ => none
  | fuel + 1, s, ip, i, ellipsis =>
    if i < 16 then
      match hexGroupAux s 0 0 with
      | none => none
      | some (acc, off, rest) =>
        if off = 0 then none
        else if rest.head? = some '.' then
          if ellipsis = none ∧ i ≠ 12 then none
          else if i + 4 > 16 then none
          else
            match parseIPv4 s with
            | none => none
            | some (a, b, c, d) =>
              some (setByte (setByte (setByte (setByte ip i a) (i + 1) b) (i + 2) c)
                (i + 3) d, i + 4, ellipsis, [])
        else
          let ip2 := setByte (setByte ip i (acc / 256)) (i + 1) (acc % 256)
          match rest with
          | [] => some (ip2, i + 2, ellipsis, [])
          | c :: rest2 =>
            if c ≠ ':' ∨ rest2 = [] then none
            else
              match rest2 with
              | c2 :: rest3 =>
                if c2 = ':' then
                  if ellipsis.isSome then none
                  else if rest3 = [] then some (ip2, i + 2, some (i + 2), [])
                  else parseIPv6Loop fuel rest3 ip2 (i + 2) (some (i + 2))
                else parseIPv6Loop fuel rest2 ip2 (i + 2) ellipsis
              | [] => none
    else some (ip, i, ellipsis, s)

/-- Post-loop processing of Go `netip.parseIPv6`: the whole input must be
consumed; a short parse is completed by expanding the ellipsis with zeros; a full
parse must not also contain an ellipsis.  Materializes the 16-byte store as a
list. -/
def finishIPv6 (ip : Nat → Nat) (i : Nat) (ellipsis : Option Nat)
    (srem : List Char) : Option (List Nat) :=
  if srem ≠ [] then none
  else if i < 16 then
    match ellipsis with
    | none => none
    | some e =>
      let n := 16 - i
      let expanded : Nat → Nat := fun j =>
        if j < e then ip j else if j < e + n then 0 else ip (j - n)
      some ((List.range 16).map expanded)
  else if ellipsis.isSome then none
  else some ((List.range 16).map ip)

/-- Model of Go `netip.parseIPv6` as used through `net.ParseIP`: a `%` zone
anywhere makes `net.ParseIP` return nil (empty zone is a parse error, nonempty
zone is rejected by the `net.ParseIP` wrapper), then a leading `::` is split off
and the group loop runs. -/
def parseIPv6 (s0 : List Char) : Option (List Nat) :=
  if s0.contains '%' then none
  else
    match s0 with
    | ':' :: ':' :: s1 =>
      if s1 = [] then some (List.replicate 16 0)
      else
        match parseIPv6Loop 16 s1 (fun _ => 0) 0 (some 0) with
        | none => none
        | some (ip, i, ell, srem) => finishIPv6 ip i ell srem
    | _ =>
      match parseIPv6Loop 16 s0 (fun _ => 0) 0 none with
      | none => none
      | some (ip, i, ell, srem) => finishIPv6 ip i ell srem

/-- First `.`, `:` or `%` in the string, deciding which family `net.ParseIP`
attempts (it never tries both). -/
def firstDotColon : List Char → Option Char
  | [] => none
  | c :: cs =>
    if c = '.' then some '.'
    else if c = ':' then some ':'
    else if c = '%' then some '%'
    else firstDotColon cs

/-- The 12-byte IPv4-in-IPv6 mapping head (Go's `v4InV6Prefix`): an IPv4 address
is stored by `net.ParseIP` as these 12 bytes followed by the 4 octets. -/
def v4InV6Pref : List Nat := [0, 0, 0, 0, 0, 0, 0, 0, 0, 0, 255, 255]

/-- Model of Go `net.ParseIP`: returns `none` (Go nil) or the 16-byte form. -/
def parseIP (s : String) : Option (List Nat) :=
  match firstDotColon s.data with
  | some '.' =>
    match parseIPv4 s.data with
    | some (a, b, c, d) => some (v4InV6Pref ++ [a, b, c, d])
    | none => none
  | some ':' => parseIPv6 s.data
  | _ => none

/-- All bytes zero (Go's `isZeros`). -/
def isZeros (l : List Nat) : Bool := l.all (fun x => x == 0)

/-- Model of Go `net.IP.To4`: a 4-byte value, or the tail of a 16-byte
IPv4-mapped value; otherwise nil. -/
def to4 (ip : List Nat) : Option (List Nat) :=
  if ip.length = 4 then some ip
  else if ip.length = 16 ∧ isZeros (ip.take 10) = true ∧ (ip.drop 10).take 2 = [255, 255]
  then some (ip.drop 12)
  else none

/-- Model of Go `net.IP.To16`: a 4-byte value is mapped into 16-byte form, a
16-byte value is returned unchanged; otherwise nil. -/
def to16 (ip : List Nat) : Option (List Nat) :=
  if ip.length = 4 then some (v4InV6Pref ++ ip)
  else if ip.length = 16 then some ip
  else none

example : parseIP "1.2.3.4" = some [0, 0, 0, 0, 0, 0, 0, 0, 0, 0, 255, 255, 1, 2, 3, 4] := by decide

example : parseIP "::ffff:1.2.3.4" = some [0, 0, 0, 0, 0, 0, 0, 0, 0, 0, 255, 255, 1, 2, 3, 4] := by decide

example : parseIP "::1" = some [0, 0, 0, 0, 0, 0, 0, 0, 0, 0, 0, 0, 0, 0, 0, 1] := by decide

example : parseIP "2001:db8::8:800:200c:417a" =
    some [32, 1, 13, 184, 0, 0, 0, 0, 0, 8, 8, 0, 32, 12, 65, 122] := by decide

example : parseIP "1.2.3.256" = none := by decide

example : parseIP "01.2.3.4" = none := by decide

example : parseIP "1::2::3" = none := by decide

example : parseIP "1:2:3:4:5:6:7:8:9" = none := by decide

example : parseIP "fe80::1%eth0" = none := by decide

example : parseIP "" = none := by decide

example : parseIP "8.8.8.8" = some (v4InV6Pref ++ [8, 8, 8, 8]) := by decide

/-- Characters permitted in an FQDN label per the spec's grammar: alphanumeric
plus hyphen. -/
def isLabelChar (c : Char) : Bool := c.isAlphanum || c = '-'

/-- Split a rune sequence at every `.` (each `.` ends a component). -/
def splitOnDot : List Char → List (List Char)
  | [] => [[]]
  | c :: cs =>
    if c = '.' then [] :: splitOnDot cs
    else
      match splitOnDot cs with
      | r :: rs => (c :: r) :: rs
      | [] => [[c]]

/-- Modelled from the spec: the constant `VALID_FQDN_REGEX` is in a repository
file outside this slice, so the FQDN grammar is taken from the spec's words —
dot-separated labels, each label nonempty and built from alphanumerics plus
hyphen, anchored, ending in a trailing dot (`sub.domain.name.` shape): one or
more labels, each followed by `.`. -/
def isFQDN (s : String) : Bool :=
  match (splitOnDot s.data).reverse with
  | [] :: labels => !labels.isEmpty && labels.all (fun l => !l.isEmpty && l.all isLabelChar)
  | _ => false

example : isFQDN "svc.local." = true := by decide
example : isFQDN "bad name" = false := by decide
example : isFQDN "example.com" = false := by decide
example : isFQDN "." = false := by decide
example : isFQDN "" = false := by decide

/-- Adjacent-equal-rune test: the loop in `isValidTarget`'s CNAME case returns
failure when `runes[i+1] == runes[i]` for some `i`. -/
def hasAdjacentDup : List Char → Bool
  | c1 :: c2 :: rest => if c2 = c1 then true else hasAdjacentDup (c2 :: rest)
  | _ => false

/-- One statically answered DNS entry (`LocalDNSRecord` in the source).  The Go
field `Type` is renamed `Typ` (`Type` is a Lean keyword); `TTL` is Go `uint32`,
modelled as `Nat` (it is only ever compared with zero). -/
structure LocalDNSRecord where
  Name : String
  Typ : String
  TTL : Nat
  Target : String
deriving DecidableEq, Repr

/-- One upstream resolver endpoint; `Port` is Go `uint16`, modelled as `Nat`
(only assigned the constant 53, never arithmetic). -/
structure Nameserver where
  IPv4 : String
  IPv6 : String
  Port : Nat
deriving DecidableEq, Repr

/-- The upstream pair plus forwarding timeout (`uint16` milliseconds). -/
structure UpstreamNameservers where
  Primary : Nameserver
  Secondary : Nameserver
  TimeoutMs : Nat
deriving DecidableEq, Repr

/-- The aggregate configuration. -/
structure Configuration where
  LocalRecords : List LocalDNSRecord
  UpstreamNameservers : UpstreamNameservers
deriving DecidableEq, Repr

/-- The permitted record type strings, as in the source's global slice. -/
def PermittedRecordTypes : List String := ["A", "AAAA", "CNAME"]

/-- Model of `isValidRecordName`: the FQDN pattern match (the defensive
regex-compile-failure path of the source logs and returns false; the pattern is
a constant, so the match is modelled as total). -/
def isValidRecordName (name : String) : Bool := isFQDN name

/-- Model of `isValidType`: membership in `PermittedRecordTypes`. -/
def isValidType (parsedType : String) : Bool :=
  PermittedRecordTypes.any (fun v => parsedType == v)

/-- Model of `isValidTarget`: per-type target check.  `A` is
`net.ParseIP(t).To4() != nil`, `AAAA` is `net.ParseIP(t).To16() != nil`
(`To4`/`To16` of Go nil are nil), `CNAME` is the FQDN match with the
adjacent-duplicate-rune loop returning failure first, and every other type
falls through to failure. -/
def isValidTarget (parsedType : String) (parsedTarget : String) : Bool :=
  let runes := parsedTarget.data
  if parsedType = "A" then
    match parseIP parsedTarget with
    | none => false
    | some ip => (to4 ip).isSome
  else if parsedType = "AAAA" then
    match parseIP parsedTarget with
    | none => false
    | some ip => (to16 ip).isSome
  else if parsedType = "CNAME" then
    let matched := isFQDN parsedTarget
    if hasAdjacentDup runes then false else matched
  else false

/-- The error values `ValidateNameserver` can produce (the Go code formats them
as strings; they are modelled structurally). -/
inductive NsError where
  | bothEmpty : NsError
  | ipv4Invalid : String → NsError
  | ipv6Invalid : String → NsError
deriving DecidableEq, Repr

/-- The error values `LoadConfig` can produce after a successful decode, one per
validation site, each record error carrying the record index the Go message
interpolates. -/
inductive ConfigError where
  | recordName : Nat → ConfigError
  | recordType : Nat → ConfigError
  | recordTTL : Nat → ConfigError
  | recordTarget : Nat → ConfigError
  | nameserver : NsError → ConfigError
deriving DecidableEq, Repr

/-- Model of `ValidateNameserver`.  The Go function mutates through a pointer
and returns an error; here it returns the updated endpoint together with the
optional error.  Note the port default is applied first, before any check. -/
def ValidateNameserver (ns : Nameserver) : Nameserver × Option NsError :=
  let ns := if ns.Port = 0 then { ns with Port := 53 } else ns
  if ns.IPv4 = "" ∧ ns.IPv6 = "" then (ns, some NsError.bothEmpty)
  else if ns.IPv4 ≠ "" ∧ parseIP ns.IPv4 = none then (ns, some (NsError.ipv4Invalid ns.IPv4))
  else if ns.IPv6 ≠ "" ∧ parseIP ns.IPv6 = none then (ns, some (NsError.ipv6Invalid ns.IPv6))
  else (ns, none)

/-- The record loop of `LoadConfig` (`for k, v := range config.LocalRecords`),
with `k` the running index: name, then type, then TTL, then target, first
failure wins. -/
def validateRecords : Nat → List LocalDNSRecord → Option ConfigError
  | _, [] => none
  | k, v :: rest =>
    if ¬ isValidRecordName v.Name then some (ConfigError.recordName k)
    else if ¬ isValidType v.Typ then some (ConfigError.recordType k)
    else if v.TTL = 0 then some (ConfigError.recordTTL k)
    else if ¬ isValidTarget v.Typ v.Target then some (ConfigError.recordTarget k)
    else validateRecords (k + 1) rest

/-- Model of `LoadConfig` from the decoded document value onward (file access
and JSON decode are external collaborators).  Mirrors the Go `(value, error)`
return pair: every failure path returns Go `(nil, err)`, i.e. `(none, some e)`;
the success path returns the normalized configuration and no error. -/
def LoadConfig (config : Configuration) : Option Configuration × Option ConfigError :=
  match validateRecords 0 config.LocalRecords with
  | some e => (none, some e)
  | none =>
    match ValidateNameserver config.UpstreamNameservers.Primary with
    | (_, some e) => (none, some (ConfigError.nameserver e))
    | (p, none) =>
      match ValidateNameserver config.UpstreamNameservers.Secondary with
      | (_, some e) => (none, some (ConfigError.nameserver e))
      | (s, none) =>
        let t := if config.UpstreamNameservers.TimeoutMs = 0 then 5000
                 else config.UpstreamNameservers.TimeoutMs
        (some { config with
                 UpstreamNameservers := { Primary := p, Secondary := s, TimeoutMs := t } },
         none)

/-- A record that passes all four per-record checks. -/
def recordOK (r : LocalDNSRecord) : Bool :=
  isValidRecordName r.Name && isValidType r.Typ && (r.TTL != 0) &&
    isValidTarget r.Typ r.Target

/-- The pure validity condition on a nameserver's two address strings (the part
of `ValidateNameserver` that decides success, which does not depend on the
port). -/
def ipPairOK (v4 v6 : String) : Bool :=
  !(v4 == "" && v6 == "") && (v4 == "" || (parseIP v4).isSome) &&
    (v6 == "" || (parseIP v6).isSome)

/-- A configuration with no violation anywhere: every record passes and both
nameservers pass. -/
def configOK (c : Configuration) : Bool :=
  c.LocalRecords.all recordOK &&
    ipPairOK c.UpstreamNameservers.Primary.IPv4 c.UpstreamNameservers.Primary.IPv6 &&
    ipPairOK c.UpstreamNameservers.Secondary.IPv4 c.UpstreamNameservers.Secondary.IPv6

/-- Follows the spec's wording: the first rule a given record violates, in the
order name, type, TTL, target, rendered as the error for index `k`.  (Meaningful
when the record violates some rule.) -/
def firstFieldError (k : Nat) (r : LocalDNSRecord) : ConfigError :=
  if ¬ isValidRecordName r.Name then ConfigError.recordName k
  else if ¬ isValidType r.Typ then ConfigError.recordType k
  else if r.TTL = 0 then ConfigError.recordTTL k
  else ConfigError.recordTarget k

/-- The record index a `ConfigError` references (`none` for nameserver
errors). -/
def errIndex : ConfigError → Option Nat
  | ConfigError.recordName k => some k
  | ConfigError.recordType k => some k
  | ConfigError.recordTTL k => some k
  | ConfigError.recordTarget k => some k
  | ConfigError.nameserver _ => none

theorem finishIPv6_length {ip : Nat → Nat} {i : Nat} {ell : Option Nat}
    {srem : List Char} {out : List Nat} (h : finishIPv6 ip i ell srem = some out) :
    out.length = 16 := by
  unfold finishIPv6 at h
  split at h
  · exact absurd h (by simp)
  · split at h
    · split at h
      · exact absurd h (by simp)
      · simp only [Option.some.injEq] at h
        subst h
        simp
    · split at h
      · exact absurd h (by simp)
      · simp only [Option.some.injEq] at h
        subst h
        simp

theorem parseIPv6_length {s : List Char} {ip : List Nat} (h : parseIPv6 s = some ip) :
    ip.length = 16 := by
  unfold parseIPv6 at h
  split at h
  · exact absurd h (by simp)
  · split at h
    · split at h
      · simp only [Option.some.injEq] at h
        subst h
        simp
      · split at h
        · exact absurd h (by simp)
        · exact finishIPv6_length h
    · split at h
      · exact absurd h (by simp)
      · exact finishIPv6_length h

theorem parseIP_length {s : String} {ip : List Nat} (h : parseIP s = some ip) :
    ip.length = 16 := by
  unfold parseIP at h
  split at h
  · split at h
    · simp only [Option.some.injEq] at h
      subst h
      simp [v4InV6Pref]
    · exact absurd h (by simp)
  · exact parseIPv6_length h
  · exact absurd h (by simp)

theorem to16_of_length16 {ip : List Nat} (h : ip.length = 16) : to16 ip = some ip := by
  unfold to16
  rw [if_neg (by omega), if_pos h]

theorem all_zero_eq_replicate (l : List Nat) (h : isZeros l = true) :
    l = List.replicate l.length 0 := by
  induction l with
  | nil => rfl
  | cons x xs ih =>
    simp only [isZeros, List.all_cons, Bool.and_eq_true, beq_iff_eq] at h
    simp only [List.length_cons, List.replicate_succ, h.1]
    exact congrArg _ (ih h.2)

theorem take12_iff {ip : List Nat} (hlen : ip.length = 16) :
    ip.take 12 = v4InV6Pref ↔
      (isZeros (ip.take 10) = true ∧ (ip.drop 10).take 2 = [255, 255]) := by
  have hsplit : ip.take 12 = ip.take 10 ++ (ip.drop 10).take 2 := by
    simpa using List.take_add ip 10 2
  have hlen10 : (ip.take 10).length = 10 := by simp [hlen]
  have hpf : v4InV6Pref = List.replicate 10 0 ++ [255, 255] := by decide
  constructor
  · intro h
    rw [hsplit, hpf] at h
    obtain ⟨h1, h2⟩ := List.append_inj h (by simp [hlen10])
    refine ⟨?_, h2⟩
    rw [h1]
    decide
  · rintro ⟨h1, h2⟩
    rw [hsplit, h2, hpf]
    have hr := all_zero_eq_replicate (ip.take 10) h1
    rw [hlen10] at hr
    rw [hr]

theorem to4_isSome_iff {ip : List Nat} (hlen : ip.length = 16) :
    (to4 ip).isSome = true ↔ ip.take 12 = v4InV6Pref := by
  rw [take12_iff hlen]
  unfold to4
  rw [if_neg (by omega)]
  split
  · rename_i hc
    simp only [Option.isSome_some, true_iff]
    exact ⟨hc.2.1, hc.2.2⟩
  · rename_i hc
    simp only [Option.isSome_none, Bool.false_eq_true, false_iff]
    intro hcontra
    exact hc ⟨hlen, hcontra.1, hcontra.2⟩

theorem validateRecords_cons_ok {r : LocalDNSRecord} (h : recordOK r = true)
    (k : Nat) (rest : List LocalDNSRecord) :
    validateRecords k (r :: rest) = validateRecords (k + 1) rest := by
  simp only [recordOK, Bool.and_eq_true, bne_iff_ne] at h
  obtain ⟨⟨⟨h1, h2⟩, h3⟩, h4⟩ := h
  simp [validateRecords, h1, h2, h3, h4]

theorem validateRecords_cons_bad {r : LocalDNSRecord} (h : recordOK r = false)
    (k : Nat) (rest : List LocalDNSRecord) :
    validateRecords k (r :: rest) = some (firstFieldError k r) := by
  unfold validateRecords firstFieldError
  split_ifs <;> first | rfl | (exfalso; simp_all [recordOK])

theorem validateRecords_all_ok {l : List LocalDNSRecord} (h : l.all recordOK = true)
    (k : Nat) : validateRecords k l = none := by
  induction l generalizing k with
  | nil => rfl
  | cons r rest ih =>
    simp only [List.all_cons, Bool.and_eq_true] at h
    rw [validateRecords_cons_ok h.1 k rest]
    exact ih h.2 (k + 1)

theorem validateRecords_eq_none_iff (l : List LocalDNSRecord) (k : Nat) :
    validateRecords k l = none ↔ l.all recordOK = true := by
  induction l generalizing k with
  | nil => simp [validateRecords]
  | cons r rest ih =>
    by_cases h : recordOK r = true
    · rw [validateRecords_cons_ok h]
      simp [h, ih]
    · rw [validateRecords_cons_bad (by simpa using h)]
      simp [h]

theorem validateRecords_append {pre : List LocalDNSRecord} {r : LocalDNSRecord}
    (hpre : pre.all recordOK = true) (hr : recordOK r = false)
    (k : Nat) (post : List LocalDNSRecord) :
    validateRecords k (pre ++ r :: post) = some (firstFieldError (k + pre.length) r) := by
  induction pre generalizing k with
  | nil => simpa using validateRecords_cons_bad hr k post
  | cons p pre ih =>
    simp only [List.all_cons, Bool.and_eq_true] at hpre
    rw [List.cons_append, validateRecords_cons_ok hpre.1, ih hpre.2 (k + 1)]
    have : k + 1 + pre.length = k + (p :: pre).length := by
      simp [List.length_cons]
      omega
    rw [this]

theorem ValidateNameserver_fst (ns : Nameserver) :
    (ValidateNameserver ns).1 =
      { ns with Port := if ns.Port = 0 then 53 else ns.Port } := by
  by_cases hp : ns.Port = 0 <;>
    simp only [ValidateNameserver, hp, if_true, if_false] <;>
    split_ifs <;> rfl

theorem ValidateNameserver_snd_eq_none_iff (ns : Nameserver) :
    (ValidateNameserver ns).2 = none ↔ ipPairOK ns.IPv4 ns.IPv6 = true := by
  by_cases hp : ns.Port = 0 <;>
    simp only [ValidateNameserver, hp, if_true, if_false] <;>
    split_ifs <;>
    simp_all [ipPairOK, Option.isSome_iff_ne_none] <;>
    tauto

theorem LoadConfig_records_err {c : Configuration} {e : ConfigError}
    (h : validateRecords 0 c.LocalRecords = some e) : LoadConfig c = (none, some e) := by
  unfold LoadConfig
  rw [h]

theorem LoadConfig_primary_err {c : Configuration} {e : NsError}
    (hrec : validateRecords 0 c.LocalRecords = none)
    (h : (ValidateNameserver c.UpstreamNameservers.Primary).2 = some e) :
    LoadConfig c = (none, some (ConfigError.nameserver e)) := by
  have hP : ValidateNameserver c.UpstreamNameservers.Primary =
      ((ValidateNameserver c.UpstreamNameservers.Primary).1, some e) := by
    rw [← h]
  unfold LoadConfig
  rw [hrec, hP]

theorem LoadConfig_secondary_err {c : Configuration} {e : NsError}
    (hrec : validateRecords 0 c.LocalRecords = none)
    (hp : (ValidateNameserver c.UpstreamNameservers.Primary).2 = none)
    (h : (ValidateNameserver c.UpstreamNameservers.Secondary).2 = some e) :
    LoadConfig c = (none, some (ConfigError.nameserver e)) := by
  have hP : ValidateNameserver c.UpstreamNameservers.Primary =
      ((ValidateNameserver c.UpstreamNameservers.Primary).1, none) := by
    rw [← hp]
  have hS : ValidateNameserver c.UpstreamNameservers.Secondary =
      ((ValidateNameserver c.UpstreamNameservers.Secondary).1, some e) := by
    rw [← h]
  unfold LoadConfig
  rw [hrec, hP, hS]

theorem LoadConfig_success {c : Configuration}
    (hrec : validateRecords 0 c.LocalRecords = none)
    (hp : (ValidateNameserver c.UpstreamNameservers.Primary).2 = none)
    (hs : (ValidateNameserver c.UpstreamNameservers.Secondary).2 = none) :
    LoadConfig c =
      (some { c with UpstreamNameservers :=
        { Primary := (ValidateNameserver c.UpstreamNameservers.Primary).1,
          Secondary := (ValidateNameserver c.UpstreamNameservers.Secondary).1,
          TimeoutMs := if c.UpstreamNameservers.TimeoutMs = 0 then 5000
                       else c.UpstreamNameservers.TimeoutMs } }, none) := by
  have hP : ValidateNameserver c.UpstreamNameservers.Primary =
      ((ValidateNameserver c.UpstreamNameservers.Primary).1, none) := by
    rw [← hp]
  have hS : ValidateNameserver c.UpstreamNameservers.Secondary =
      ((ValidateNameserver c.UpstreamNameservers.Secondary).1, none) := by
    rw [← hs]
  unfold LoadConfig
  rw [hrec, hP, hS]

example : isValidTarget "A" "10.0.0.5" = true := by decide
example : isValidTarget "A" "::1" = false := by decide
example : isValidTarget "AAAA" "::1" = true := by decide
example : isValidTarget "CNAME" "my.example.org." = true := by decide
example : ValidateNameserver { IPv4 := "1.1.1.1", IPv6 := "", Port := 0 } =
    ({ IPv4 := "1.1.1.1", IPv6 := "", Port := 53 }, none) := by decide

/-- C1: the claim states that an `AAAA` record with an IPv4-only literal target
(e.g. `"1.2.3.4"`) fails target validation.  It does not: `net.ParseIP`
returns the 16-byte IPv4-in-IPv6 form for a dotted-quad literal and `To16` of
that form is non-nil, so the target passes. -/
theorem aaaa_accepts_ipv4_counterexample : isValidTarget "AAAA" "1.2.3.4" = true := by
  decide

/-- C1 (amended): an `AAAA` target passes validation exactly when the target
parses as any IP literal at all — IPv6 literals and IPv4 dotted-quad literals
alike — because `To16` succeeds on every value `net.ParseIP` returns. -/
theorem aaaa_target_iff_parses_as_ip (t : String) :
    isValidTarget "AAAA" t = (parseIP t).isSome := by
  cases h : parseIP t with
  | none => simp [isValidTarget, h]
  | some ip => simp [isValidTarget, h, to16_of_length16 (parseIP_length h)]

/-- C2: the claim states `ValidateNameserver` mutates the port only on the
success path.  It does not: on the input with both addresses empty it returns
an error, yet the port has been set from 0 to 53. -/
theorem validateNameserver_mutates_on_error_counterexample :
    ValidateNameserver { IPv4 := "", IPv6 := "", Port := 0 } =
        ({ IPv4 := "", IPv6 := "", Port := 53 }, some NsError.bothEmpty) ∧
      ({ IPv4 := "", IPv6 := "", Port := 53 } : Nameserver) ≠
        { IPv4 := "", IPv6 := "", Port := 0 } := by
  exact ⟨by decide, by decide⟩

/-- C2 (amended): `ValidateNameserver` sets the port to 53 whenever it is zero,
unconditionally and before any check, on both the success and the error paths;
the `ipv4` and `ipv6` fields are never changed. -/
theorem validateNameserver_port_default_unconditional (ns : Nameserver) :
    (ValidateNameserver ns).1.IPv4 = ns.IPv4 ∧
      (ValidateNameserver ns).1.IPv6 = ns.IPv6 ∧
      (ValidateNameserver ns).1.Port = (if ns.Port = 0 then 53 else ns.Port) := by
  rw [ValidateNameserver_fst]
  exact ⟨rfl, rfl, rfl⟩

/-- C3: the claim states every syntactically valid IPv6 literal — including the
IPv4-mapped form `"::ffff:1.2.3.4"` — is rejected as an `A` target.  It is
not: `To4` of the parsed IPv4-mapped value is non-nil, so it passes. -/
theorem a_accepts_mapped_ipv6_counterexample :
    isValidTarget "A" "::ffff:1.2.3.4" = true := by
  decide

/-- C3 (amended): an `A` target passes validation exactly when it parses as an
IP literal whose 16-byte form is IPv4-mapped (leading `v4InV6Pref` bytes) —
dotted-quad IPv4 literals and IPv4-mapped IPv6 literals pass, all other IPv6
literals are rejected. -/
theorem a_target_iff_v4_mapped (t : String) :
    isValidTarget "A" t = true ↔
      ∃ ip, parseIP t = some ip ∧ ip.take 12 = v4InV6Pref := by
  cases h : parseIP t with
  | none => simp [isValidTarget, h]
  | some ip => simp [isValidTarget, h, to4_isSome_iff (parseIP_length h)]

/-- C4: on any input with a violation, `LoadConfig` reports the first violation
in document order and returns no partial configuration: (1) an error is
returned exactly when the configuration has a violation; (2) whenever an error
is returned the configuration component is `none`; (3) if all records before
some failing record pass, the error is that record's first failing rule (name,
then type, then TTL, then target) at that record's index; (4) if all records
pass and the primary nameserver fails, its error is returned; (5) if all
records and the primary pass and the secondary fails, the secondary's error is
returned. -/
theorem loadConfig_first_violation (c : Configuration) :
    ((LoadConfig c).2.isSome ↔ configOK c = false)
  ∧ (∀ e, (LoadConfig c).2 = some e → (LoadConfig c).1 = none)
  ∧ (∀ pre r post, c.LocalRecords = pre ++ r :: post → pre.all recordOK = true →
      recordOK r = false →
      (LoadConfig c).1 = none ∧ (LoadConfig c).2 = some (firstFieldError pre.length r))
  ∧ (c.LocalRecords.all recordOK = true →
      ∀ e, (ValidateNameserver c.UpstreamNameservers.Primary).2 = some e →
        (LoadConfig c).1 = none ∧ (LoadConfig c).2 = some (ConfigError.nameserver e))
  ∧ (c.LocalRecords.all recordOK = true →
      (ValidateNameserver c.UpstreamNameservers.Primary).2 = none →
      ∀ e, (ValidateNameserver c.UpstreamNameservers.Secondary).2 = some e →
        (LoadConfig c).1 = none ∧ (LoadConfig c).2 = some (ConfigError.nameserver e)) := by
  refine ⟨?_, ?_, ?_, ?_, ?_⟩
  · constructor
    · intro hsome
      by_contra hok
      rw [Bool.not_eq_false] at hok
      simp only [configOK, Bool.and_eq_true] at hok
      obtain ⟨⟨hrec, hp⟩, hs⟩ := hok
      rw [LoadConfig_success (validateRecords_all_ok hrec 0)
        ((ValidateNameserver_snd_eq_none_iff _).mpr hp)
        ((ValidateNameserver_snd_eq_none_iff _).mpr hs)] at hsome
      simp at hsome
    · intro hbad
      cases hv : validateRecords 0 c.LocalRecords with
      | some e => rw [LoadConfig_records_err hv]; simp
      | none =>
        have hrec := (validateRecords_eq_none_iff _ 0).mp hv
        cases hpv : (ValidateNameserver c.UpstreamNameservers.Primary).2 with
        | some e => rw [LoadConfig_primary_err hv hpv]; simp
        | none =>
          have hp := (ValidateNameserver_snd_eq_none_iff _).mp hpv
          cases hsv : (ValidateNameserver c.UpstreamNameservers.Secondary).2 with
          | some e => rw [LoadConfig_secondary_err hv hpv hsv]; simp
          | none =>
            exfalso
            have hs := (ValidateNameserver_snd_eq_none_iff _).mp hsv
            simp [configOK, hrec, hp, hs] at hbad
  · intro e he
    cases hv : validateRecords 0 c.LocalRecords with
    | some e2 => rw [LoadConfig_records_err hv]
    | none =>
      cases hpv : (ValidateNameserver c.UpstreamNameservers.Primary).2 with
      | some e2 => rw [LoadConfig_primary_err hv hpv]
      | none =>
        cases hsv : (ValidateNameserver c.UpstreamNameservers.Secondary).2 with
        | some e2 => rw [LoadConfig_secondary_err hv hpv hsv]
        | none =>
          rw [LoadConfig_success hv hpv hsv] at he
          simp at he
  · intro pre r post hsplit hpre hbad
    have hval : validateRecords 0 c.LocalRecords = some (firstFieldError pre.length r) := by
      rw [hsplit]
      simpa using validateRecords_append hpre hbad 0 post
    rw [LoadConfig_records_err hval]
    exact ⟨rfl, rfl⟩
  · intro hrec e he
    rw [LoadConfig_primary_err (validateRecords_all_ok hrec 0) he]
    exact ⟨rfl, rfl⟩
  · intro hrec hp e he
    rw [LoadConfig_secondary_err (validateRecords_all_ok hrec 0) hp he]
    exact ⟨rfl, rfl⟩

/-- C4 witness: the spec's example of a record with an invalid name at index 0
(`"bad name"`), applied to the first-violation theorem. -/
theorem loadConfig_first_violation_witness :
    (LoadConfig { LocalRecords := [{ Name := "bad name", Typ := "A", TTL := 1, Target := "1.2.3.4" }],
                  UpstreamNameservers := { Primary := { IPv4 := "1.1.1.1", IPv6 := "", Port := 0 },
                                           Secondary := { IPv4 := "8.8.8.8", IPv6 := "", Port := 0 },
                                           TimeoutMs := 0 } }).1 = none ∧
    (LoadConfig { LocalRecords := [{ Name := "bad name", Typ := "A", TTL := 1, Target := "1.2.3.4" }],
                  UpstreamNameservers := { Primary := { IPv4 := "1.1.1.1", IPv6 := "", Port := 0 },
                                           Secondary := { IPv4 := "8.8.8.8", IPv6 := "", Port := 0 },
                                           TimeoutMs := 0 } }).2 =
      some (ConfigError.recordName 0) :=
  (loadConfig_first_violation _).2.2.1
    [] { Name := "bad name", Typ := "A", TTL := 1, Target := "1.2.3.4" } []
    rfl rfl (by decide)

/-- C5: a `CNAME` target passes validation exactly when it matches the FQDN
grammar and has no two identical consecutive characters; in particular
`"aa.example.com."` fails although it matches the FQDN grammar. -/
theorem cname_target_rule :
    (∀ t : String, isValidTarget "CNAME" t = true ↔
        (isFQDN t = true ∧ hasAdjacentDup t.data = false))
  ∧ isValidTarget "CNAME" "aa.example.com." = false
  ∧ isFQDN "aa.example.com." = true := by
  refine ⟨?_, by decide, by decide⟩
  intro t
  by_cases hd : hasAdjacentDup t.data = true
  · simp [isValidTarget, hd]
  · simp only [Bool.not_eq_true] at hd
    simp [isValidTarget, hd]

/-- C6: a configuration whose records all pass and whose nameservers both
validate loads successfully, with the records unchanged, each zero port
defaulted to 53, each nonzero port preserved, and a zero timeout defaulted to
5000 (nonzero preserved). -/
theorem loadConfig_valid_normalizes (c : Configuration)
    (h1 : c.LocalRecords.all recordOK = true)
    (h2 : (ValidateNameserver c.UpstreamNameservers.Primary).2 = none)
    (h3 : (ValidateNameserver c.UpstreamNameservers.Secondary).2 = none) :
    LoadConfig c =
      (some { LocalRecords := c.LocalRecords,
              UpstreamNameservers :=
                { Primary := { c.UpstreamNameservers.Primary with
                    Port := if c.UpstreamNameservers.Primary.Port = 0 then 53
                            else c.UpstreamNameservers.Primary.Port },
                  Secondary := { c.UpstreamNameservers.Secondary with
                    Port := if c.UpstreamNameservers.Secondary.Port = 0 then 53
                            else c.UpstreamNameservers.Secondary.Port },
                  TimeoutMs := if c.UpstreamNameservers.TimeoutMs = 0 then 5000
                               else c.UpstreamNameservers.TimeoutMs } },
       none) := by
  rw [LoadConfig_success (validateRecords_all_ok h1 0) h2 h3,
    ValidateNameserver_fst, ValidateNameserver_fst]

/-- C6 witness: the spec's example scenario — one valid A record, both upstream
nameservers given by IPv4 only, ports and timeout omitted — loads with ports 53
and timeout 5000. -/
theorem loadConfig_valid_normalizes_witness :
    LoadConfig { LocalRecords := [{ Name := "svc.local.", Typ := "A", TTL := 300, Target := "10.0.0.5" }],
                 UpstreamNameservers := { Primary := { IPv4 := "1.1.1.1", IPv6 := "", Port := 0 },
                                          Secondary := { IPv4 := "8.8.8.8", IPv6 := "", Port := 0 },
                                          TimeoutMs := 0 } } =
      (some { LocalRecords := [{ Name := "svc.local.", Typ := "A", TTL := 300, Target := "10.0.0.5" }],
              UpstreamNameservers := { Primary := { IPv4 := "1.1.1.1", IPv6 := "", Port := 53 },
                                       Secondary := { IPv4 := "8.8.8.8", IPv6 := "", Port := 53 },
                                       TimeoutMs := 5000 } },
       none) :=
  loadConfig_valid_normalizes _ (by decide) (by decide) (by decide)

/-- C7: validating an endpoint that already passed validation returns the same
result (no error) and leaves the endpoint — `ipv4`, `ipv6` and the already
normalized nonzero port — unchanged. -/
theorem validateNameserver_idempotent (ns ns2 : Nameserver)
    (h : ValidateNameserver ns = (ns2, none)) :
    ValidateNameserver ns2 = (ns2, none) := by
  have hfst : ns2 = { ns with Port := if ns.Port = 0 then 53 else ns.Port } := by
    rw [← ValidateNameserver_fst, h]
  have hsnd : ipPairOK ns.IPv4 ns.IPv6 = true := by
    rw [← ValidateNameserver_snd_eq_none_iff, h]
  have hv4 : ns2.IPv4 = ns.IPv4 := by rw [hfst]
  have hv6 : ns2.IPv6 = ns.IPv6 := by rw [hfst]
  have hport : ns2.Port ≠ 0 := by
    rw [hfst]
    show (if ns.Port = 0 then 53 else ns.Port) ≠ 0
    split_ifs with h0
    · omega
    · exact h0
  have h1 : (ValidateNameserver ns2).1 = ns2 := by
    rw [ValidateNameserver_fst, if_neg hport]
  have h2 : (ValidateNameserver ns2).2 = none := by
    rw [ValidateNameserver_snd_eq_none_iff, hv4, hv6]
    exact hsnd
  calc ValidateNameserver ns2 = ((ValidateNameserver ns2).1, (ValidateNameserver ns2).2) := rfl
    _ = (ns2, none) := by rw [h1, h2]

/-- C7 witness: an endpoint normalized by a successful first call validates to
itself with no error on the second call. -/
theorem validateNameserver_idempotent_witness :
    ValidateNameserver { IPv4 := "1.1.1.1", IPv6 := "", Port := 53 } =
      ({ IPv4 := "1.1.1.1", IPv6 := "", Port := 53 }, none) :=
  validateNameserver_idempotent { IPv4 := "1.1.1.1", IPv6 := "", Port := 0 }
    { IPv4 := "1.1.1.1", IPv6 := "", Port := 53 } (by decide)

/-- C8: a record with zero TTL, reached after any run of passing records, makes
`LoadConfig` fail with no configuration and a record error carrying that
record's index, whatever its other fields hold. -/
theorem loadConfig_zero_ttl_fails (c : Configuration) (pre : List LocalDNSRecord)
    (r : LocalDNSRecord) (post : List LocalDNSRecord)
    (hsplit : c.LocalRecords = pre ++ r :: post)
    (hpre : pre.all recordOK = true) (httl : r.TTL = 0) :
    (LoadConfig c).1 = none ∧
      (LoadConfig c).2 = some (firstFieldError pre.length r) ∧
      errIndex (firstFieldError pre.length r) = some pre.length := by
  have hbad : recordOK r = false := by
    simp [recordOK, httl]
  have hval : validateRecords 0 c.LocalRecords = some (firstFieldError pre.length r) := by
    rw [hsplit]
    simpa using validateRecords_append hpre hbad 0 post
  rw [LoadConfig_records_err hval]
  refine ⟨rfl, rfl, ?_⟩
  unfold firstFieldError errIndex
  split_ifs <;> rfl

/-- C8 witness: a record valid in every field except a zero TTL fails with the
TTL error at index 0. -/
theorem loadConfig_zero_ttl_fails_witness :
    (LoadConfig { LocalRecords := [{ Name := "svc.local.", Typ := "A", TTL := 0, Target := "10.0.0.5" }],
                  UpstreamNameservers := { Primary := { IPv4 := "1.1.1.1", IPv6 := "", Port := 0 },
                                           Secondary := { IPv4 := "8.8.8.8", IPv6 := "", Port := 0 },
                                           TimeoutMs := 0 } }).1 = none ∧
    (LoadConfig { LocalRecords := [{ Name := "svc.local.", Typ := "A", TTL := 0, Target := "10.0.0.5" }],
                  UpstreamNameservers := { Primary := { IPv4 := "1.1.1.1", IPv6 := "", Port := 0 },
                                           Secondary := { IPv4 := "8.8.8.8", IPv6 := "", Port := 0 },
                                           TimeoutMs := 0 } }).2 =
        some (ConfigError.recordTTL 0) ∧
      errIndex (ConfigError.recordTTL 0) = some 0 :=
  loadConfig_zero_ttl_fails _ [] { Name := "svc.local.", Typ := "A", TTL := 0, Target := "10.0.0.5" } []
    rfl rfl rfl

/-- C9: a record whose type is not exactly one of `A`, `AAAA`, `CNAME`, reached
after any run of passing records, fails the load with a record error at its
index even if its target would suit some permitted type; and `isValidTarget`
itself returns failure for every type outside that set. -/
theorem loadConfig_bad_type_fails :
    (∀ (c : Configuration) (pre : List LocalDNSRecord) (r : LocalDNSRecord)
        (post : List LocalDNSRecord),
      c.LocalRecords = pre ++ r :: post → pre.all recordOK = true →
      isValidType r.Typ = false →
      (LoadConfig c).1 = none ∧
        (LoadConfig c).2 = some (firstFieldError pre.length r) ∧
        errIndex (firstFieldError pre.length r) = some pre.length)
  ∧ (∀ ty t : String, ty ≠ "A" → ty ≠ "AAAA" → ty ≠ "CNAME" →
      isValidTarget ty t = false) := by
  constructor
  · intro c pre r post hsplit hpre hty
    have hbad : recordOK r = false := by
      simp [recordOK, hty]
    have hval : validateRecords 0 c.LocalRecords = some (firstFieldError pre.length r) := by
      rw [hsplit]
      simpa using validateRecords_append hpre hbad 0 post
    rw [LoadConfig_records_err hval]
    refine ⟨rfl, rfl, ?_⟩
    unfold firstFieldError errIndex
    split_ifs <;> rfl
  · intro ty t h1 h2 h3
    simp [isValidTarget, h1, h2, h3]

/-- C9 witness: a `TXT` record whose target is a well-formed A target fails at
index 0 with the type error; and `isValidTarget` rejects the pair directly. -/
theorem loadConfig_bad_type_fails_witness :
    ((LoadConfig { LocalRecords := [{ Name := "svc.local.", Typ := "TXT", TTL := 300, Target := "10.0.0.5" }],
                   UpstreamNameservers := { Primary := { IPv4 := "1.1.1.1", IPv6 := "", Port := 0 },
                                            Secondary := { IPv4 := "8.8.8.8", IPv6 := "", Port := 0 },
                                            TimeoutMs := 0 } }).2 =
        some (ConfigError.recordType 0)) ∧
      isValidTarget "TXT" "10.0.0.5" = false :=
  ⟨(loadConfig_bad_type_fails.1 _
      [] { Name := "svc.local.", Typ := "TXT", TTL := 300, Target := "10.0.0.5" } []
      rfl rfl (by decide)).2.1,
   loadConfig_bad_type_fails.2 "TXT" "10.0.0.5" (by decide) (by decide) (by decide)⟩

/-- C10: when `LoadConfig` succeeds, the record list of the result is exactly
the input record list, and the only changed fields are the two ports (zero to
53, nonzero preserved) and the timeout (zero to 5000, nonzero preserved); the
nameserver address strings are untouched. -/
theorem loadConfig_success_frame (c c2 : Configuration)
    (h : (LoadConfig c).1 = some c2) :
    c2.LocalRecords = c.LocalRecords ∧
    c2.UpstreamNameservers.Primary =
      { c.UpstreamNameservers.Primary with
        Port := if c.UpstreamNameservers.Primary.Port = 0 then 53
                else c.UpstreamNameservers.Primary.Port } ∧
    c2.UpstreamNameservers.Secondary =
      { c.UpstreamNameservers.Secondary with
        Port := if c.UpstreamNameservers.Secondary.Port = 0 then 53
                else c.UpstreamNameservers.Secondary.Port } ∧
    c2.UpstreamNameservers.TimeoutMs =
      (if c.UpstreamNameservers.TimeoutMs = 0 then 5000
       else c.UpstreamNameservers.TimeoutMs) := by
  cases hv : validateRecords 0 c.LocalRecords with
  | some e =>
    rw [LoadConfig_records_err hv] at h
    exact absurd h (by simp)
  | none =>
    cases hpv : (ValidateNameserver c.UpstreamNameservers.Primary).2 with
    | some e =>
      rw [LoadConfig_primary_err hv hpv] at h
      exact absurd h (by simp)
    | none =>
      cases hsv : (ValidateNameserver c.UpstreamNameservers.Secondary).2 with
      | some e =>
        rw [LoadConfig_secondary_err hv hpv hsv] at h
        exact absurd h (by simp)
      | none =>
        rw [LoadConfig_success hv hpv hsv] at h
        simp only [Option.some.injEq] at h
        subst h
        exact ⟨rfl, (ValidateNameserver_fst _), (ValidateNameserver_fst _), rfl⟩

/-- C10 witness: a configuration with a nonzero primary port and nonzero
timeout keeps them, while the secondary's zero port is defaulted to 53. -/
theorem loadConfig_success_frame_witness :
    ({ LocalRecords := ([] : List LocalDNSRecord),
       UpstreamNameservers := { Primary := { IPv4 := "1.1.1.1", IPv6 := "", Port := 5353 },
                                Secondary := { IPv4 := "", IPv6 := "::1", Port := 0 },
                                TimeoutMs := 250 } } : Configuration).LocalRecords =
      ([] : List LocalDNSRecord) ∧
    ({ IPv4 := "1.1.1.1", IPv6 := "", Port := 5353 } : Nameserver) =
      { IPv4 := "1.1.1.1", IPv6 := "", Port := 5353 } ∧
    ({ IPv4 := "", IPv6 := "::1", Port := 53 } : Nameserver) =
      { IPv4 := "", IPv6 := "::1", Port := 53 } ∧
    (250 : Nat) = 250 :=
  loadConfig_success_frame
    { LocalRecords := [],
      UpstreamNameservers := { Primary := { IPv4 := "1.1.1.1", IPv6 := "", Port := 5353 },
                               Secondary := { IPv4 := "", IPv6 := "::1", Port := 0 },
                               TimeoutMs := 250 } }
    { LocalRecords := [],
      UpstreamNameservers := { Primary := { IPv4 := "1.1.1.1", IPv6 := "", Port := 5353 },
                               Secondary := { IPv4 := "", IPv6 := "::1", Port := 53 },
                               TimeoutMs := 250 } }
    (by decide)
